import Mathlib

/-!
Shallow embedding of the `svg_render` example (examples/svg_render/src/main.rs):
the SVG tessellation build phase, the scene/camera state, and the interactive
render-loop event processing.  Scalars (`f32`/`f64` in the source) are modelled
as exact rationals.
-/

namespace SvgRender

/-- A 2D point (two floats in the source). -/
abbrev Point := ℚ × ℚ

/-- An RGB color (resvg's `Color`, three `u8` channels). -/
structure Color where
  red : ℕ
  green : ℕ
  blue : ℕ
deriving DecidableEq, Repr

/-- Modelled from the spec: "unsupported paint falls back to one fixed
fallback color".  The constant `FALLBACK_COLOR` lives in the `svg_render`
library crate, which is not among the sources; the spec fixes only that it is
one fixed color, so we pick black. -/
def FALLBACK_COLOR : Color := ⟨0, 0, 0⟩

/-- resvg's `Paint`: a solid color or some other paint kind (gradient etc.),
matched in `main` with a fallback arm for every non-color variant. -/
inductive Paint where
  | color (c : Color)
  | gradient
deriving DecidableEq, Repr

/-- A fill attribute of a path node: paint plus opacity (resvg `Fill`). -/
structure Fill where
  paint : Paint
  opacity : ℚ
deriving DecidableEq, Repr

/-- A stroke attribute of a path node: paint, opacity and line width
(resvg `Stroke`; the cap/join/dash attributes are not read by any claim). -/
structure Stroke where
  paint : Paint
  opacity : ℚ
  width : ℚ
deriving DecidableEq, Repr

/-- A path node's data (resvg `Path`): its geometric outline plus optional
fill and stroke.  Curves are modelled as already flattened, so the outline is
a polygon, a list of points. -/
structure PathShape where
  path : List Point
  fill : Option Fill
  stroke : Option Stroke
deriving DecidableEq, Repr

/-- A node-local affine transform (resvg `Transform`); `main` reads only the
translation components `e` and `f`. -/
structure Transform where
  e : ℚ
  f : ℚ
deriving DecidableEq, Repr

/-- The kind of a document node: a path node or any other node kind
(group, text, ...), matching the `NodeKind::Path` filter in `main`. -/
inductive NodeKind where
  | path (p : PathShape)
  | other
deriving DecidableEq, Repr

/-- A document node: its kind plus its local transform. -/
structure Node where
  kind : NodeKind
  transform : Transform
deriving DecidableEq, Repr

/-- A GPU vertex: position plus color and alpha.  Modelled from the spec:
the `Vertex` record built by the `svg_render` library's `VertexCtor`
("position (2 floats) + color (4 floats, RGBA, alpha = paint opacity)"). -/
structure Vertex where
  pos : Point
  rgb : Color
  alpha : ℚ
deriving DecidableEq, Repr

/-- Modelled from the spec: the `VertexCtor` of the `svg_render` library
"maps a (color, opacity) pair plus a geometric point into a GPU vertex record
(position + RGBA)". -/
def vertexCtor (c : Color) (opacity : ℚ) (p : Point) : Vertex :=
  ⟨p, c, opacity⟩

/-- The accumulated mesh (lyon's `VertexBuffers`): an ordered vertex sequence
plus an ordered triangle-index sequence. -/
structure MeshBuffer where
  vertices : List Vertex
  indices : List ℕ
deriving DecidableEq, Repr

/-- The empty mesh (`VertexBuffers::new()`). -/
def MeshBuffer.empty : MeshBuffer := ⟨[], []⟩

/-- Appending one tessellation call's output to the mesh, the way lyon's
`BuffersBuilder` does: vertices are appended and the call's local indices are
offset by the vertex count already present. -/
def MeshBuffer.append (m : MeshBuffer) (out : List Vertex × List ℕ) : MeshBuffer :=
  ⟨m.vertices ++ out.1, m.indices ++ out.2.map (· + m.vertices.length)⟩

/-- A tessellation failure (lyon's `TessellationError`). -/
inductive TessError where
  | degenerate
deriving DecidableEq, Repr

/-- Modelled from the spec: lyon's `FillTessellator` ("standard planar polygon
triangulation of the filled region"; a failure is a "degenerate ...
geometry edge case").  Paths are modelled as polygons with curves already
flattened to the tolerance; a polygon with fewer than three points is
degenerate and fails, any other polygon is triangulated as a fan, each vertex
built by the vertex constructor from the fixed color and opacity. -/
def fillTess (c : Color) (opacity : ℚ) (path : List Point) :
    Except TessError (List Vertex × List ℕ) :=
  if path.length < 3 then .error .degenerate
  else .ok (path.map (vertexCtor c opacity),
    (List.range (path.length - 2)).flatMap (fun i => [0, i + 1, i + 2]))

/-- Modelled from the spec: lyon's `StrokeTessellator` ("offset-curve
generation plus join/cap geometry construction"); a path with fewer than two
points has no stroke outline and fails as degenerate, otherwise each of the
`n - 1` segments contributes a quad (four vertices, two triangles). -/
def strokeTess (c : Color) (opacity : ℚ) (width : ℚ) (path : List Point) :
    Except TessError (List Vertex × List ℕ) :=
  if path.length < 2 then .error .degenerate
  else .ok ((path.zip path.tail).flatMap (fun pq =>
      [vertexCtor c opacity (pq.1.1, pq.1.2 - width / 2),
       vertexCtor c opacity (pq.1.1, pq.1.2 + width / 2),
       vertexCtor c opacity (pq.2.1, pq.2.2 - width / 2),
       vertexCtor c opacity (pq.2.1, pq.2.2 + width / 2)]),
    (List.range (path.length - 1)).flatMap (fun i =>
      [4 * i, 4 * i + 1, 4 * i + 2, 4 * i + 1, 4 * i + 3, 4 * i + 2]))

/-- Modelled from the spec: `convert_stroke` of the `svg_render` library
adapts a stroke's paint to a color (solid colors honored, anything else
normalized to the fallback color) and its attributes to stroke options. -/
def convert_stroke (s : Stroke) : Color :=
  match s.paint with
  | .color c => c
  | _ => FALLBACK_COLOR

/-- The fill paint and opacity `main` selects for a path node: the node's own
fill when present, otherwise the fallback color at opacity 1
("get paint or create default one"). -/
def fillPaint (p : PathShape) : Paint × ℚ :=
  match p.fill with
  | some f => (f.paint, f.opacity)
  | none => (.color FALLBACK_COLOR, 1)

/-- The color `main` passes to the fill tessellation: the solid color of the
selected paint, or the fallback color for any other paint kind. -/
def fillColor (p : PathShape) : Color :=
  match (fillPaint p).1 with
  | .color c => c
  | _ => FALLBACK_COLOR

/-- Processing one path node of the document, as the build loop in `main`
does: the fill is always tessellated (with the selected color and opacity),
and a fill tessellation error is fatal (`.expect("Error during
tesselation!")` panics); then, when a stroke is present, the stroke is
tessellated and its error, if any, is discarded (`let _ = ...`), keeping the
mesh built so far. -/
def processShape (m : MeshBuffer) (p : PathShape) : Except String MeshBuffer :=
  match fillTess (fillColor p) (fillPaint p).2 p.path with
  | .error _ => .error "Error during tesselation!"
  | .ok out =>
    let m := m.append out
    match p.stroke with
    | none => .ok m
    | some s =>
      match strokeTess (convert_stroke s) s.opacity s.width p.path with
      | .error _ => .ok m
      | .ok out2 => .ok (m.append out2)

/-- The path nodes of the document in traversal order
(the `NodeKind::Path` filter over `rtree.root().descendants()`). -/
def pathNodes (doc : List Node) : List PathShape :=
  doc.filterMap (fun n => match n.kind with | .path p => some p | .other => none)

/-- The build loop of `main` from a given accumulated mesh: each path node is
processed in order; an error from `processShape` (the `expect` panic on a fill
tessellation failure) aborts the remaining iterations. -/
def buildMeshFrom (m : MeshBuffer) : List PathShape → Except String MeshBuffer
  | [] => .ok m
  | p :: ps =>
    match processShape m p with
    | .error e => .error e
    | .ok m' => buildMeshFrom m' ps

/-- The whole build phase of `main` over the document's path nodes in
traversal order, starting from the empty mesh. -/
def buildMesh (shapes : List PathShape) : Except String MeshBuffer :=
  buildMeshFrom MeshBuffer.empty shapes

/-- The first transform recorded by the build loop in `main`: the loop visits
every descendant, but only a `NodeKind::Path` node reaches the
`if transform == None` update, so this is the first path node's transform. -/
def firstTransform : List Node → Option Transform
  | [] => none
  | n :: ns =>
    match n.kind with
    | .path _ => some n.transform
    | .other => firstTransform ns

/-- The translation `main` extracts: the recorded transform's `(e, f)`
components, or `(0, 0)` when no transform was recorded. -/
def initTranslation (doc : List Node) : ℚ × ℚ :=
  match firstTransform doc with
  | some t => (t.e, t.f)
  | none => (0, 0)

/-- A 4×4 matrix of floats (cgmath `Matrix4`), row `i` column `j` as `mᵢⱼ`. -/
structure Matrix4 where
  m00 : ℚ
  m01 : ℚ
  m02 : ℚ
  m03 : ℚ
  m10 : ℚ
  m11 : ℚ
  m12 : ℚ
  m13 : ℚ
  m20 : ℚ
  m21 : ℚ
  m22 : ℚ
  m23 : ℚ
  m30 : ℚ
  m31 : ℚ
  m32 : ℚ
  m33 : ℚ
deriving DecidableEq, Repr

/-- cgmath's `ortho(l, r, b, t, n, f)`: the standard OpenGL orthographic
projection matrix mapping horizontal extents `(l, r)`, vertical extents
`(b, t)` and depth extents `(n, f)` to the unit box. -/
def ortho (l r b t n f : ℚ) : Matrix4 where
  m00 := 2 / (r - l)
  m01 := 0
  m02 := 0
  m03 := -(r + l) / (r - l)
  m10 := 0
  m11 := 2 / (t - b)
  m12 := 0
  m13 := -(t + b) / (t - b)
  m20 := 0
  m21 := 0
  m22 := -2 / (f - n)
  m23 := -(f + n) / (f - n)
  m30 := 0
  m31 := 0
  m32 := 0
  m33 := 1

/-- The scene/camera state (`svg_render::render::Scene`): zoom factor, 2D pan
offset, projection matrix.  `main` constructs it with `Scene::new` and
mutates its public `zoom` and `pan` fields directly. -/
structure Scene where
  zoom : ℚ
  pan : ℚ × ℚ
  proj : Matrix4
deriving DecidableEq, Repr

/-- Scene initialization as in `main`: from the view-box dimensions and the
extracted translation, `zoom = 2 / max(vb_width, vb_height)`,
`pan = (vb_width / -2 + x_trans, vb_height / -2 + y_trans)`, and
`proj = ortho(-scale, scale, -1, 1, -1, 1)` with `scale = vb_width / vb_height`. -/
def initScene (vbWidth vbHeight xTrans yTrans : ℚ) : Scene where
  zoom := 2 / max vbWidth vbHeight
  pan := (vbWidth / (-2) + xTrans, vbHeight / (-2) + yTrans)
  proj := ortho (-(vbWidth / vbHeight)) (vbWidth / vbHeight) (-1) 1 (-1) 1

/-- glutin's `ElementState` for a keyboard event. -/
inductive ElementState where
  | pressed
  | released
deriving DecidableEq, Repr

/-- The virtual key codes `update_inputs` distinguishes; every other key
falls into the wildcard arm. -/
inductive Key where
  | escape
  | lbracket
  | rbracket
  | left
  | right
  | up
  | down
  | otherKey
deriving DecidableEq, Repr

/-- The window events `update_inputs` matches on: close, resize with the new
`u32` window dimensions, a keyboard event (whose virtual keycode may be
absent), and anything else. -/
inductive Event where
  | closed
  | resized (w h : ℕ)
  | keyboard (state : ElementState) (key : Option Key)
  | otherEvent
deriving DecidableEq, Repr

/-- One step of the `poll_events` closure in `update_inputs`, threading the
scene and the `status` flag:
a `Closed` event clears `status`; a `Resized(w, h)` event replaces the
projection with `ortho(-scl, scl, -1, 1, -1, 1)` for `scl = w / h`; a pressed
key with a keycode dispatches on the key (escape clears `status`, `[`/`]`
scale zoom by 0.8/1.2, arrows shift one pan component by `0.2 / zoom`);
everything else is ignored. -/
def processEvent (s : Scene × Bool) (e : Event) : Scene × Bool :=
  match e with
  | .closed => (s.1, false)
  | .resized w h =>
    ({ s.1 with proj := ortho (-((w : ℚ) / (h : ℚ))) ((w : ℚ) / (h : ℚ)) (-1) 1 (-1) 1 }, s.2)
  | .keyboard .pressed (some key) =>
    match key with
    | .escape => (s.1, false)
    | .lbracket => ({ s.1 with zoom := s.1.zoom * (4/5) }, s.2)
    | .rbracket => ({ s.1 with zoom := s.1.zoom * (6/5) }, s.2)
    | .left => ({ s.1 with pan := (s.1.pan.1 - (1/5) / s.1.zoom, s.1.pan.2) }, s.2)
    | .right => ({ s.1 with pan := (s.1.pan.1 + (1/5) / s.1.zoom, s.1.pan.2) }, s.2)
    | .up => ({ s.1 with pan := (s.1.pan.1, s.1.pan.2 - (1/5) / s.1.zoom) }, s.2)
    | .down => ({ s.1 with pan := (s.1.pan.1, s.1.pan.2 + (1/5) / s.1.zoom) }, s.2)
    | .otherKey => s
  | .keyboard _ _ => s
  | .otherEvent => s

/-- `update_inputs`: drain the pending events in order, starting with
`status = true`, and return the final scene and status (`true` keeps the
render loop running, `false` makes it break). -/
def update_inputs (scene : Scene) (events : List Event) : Scene × Bool :=
  events.foldl processEvent (scene, true)

/-- The change of the stored pan produced by draining one pressed key event
on a scene (the status flag does not influence the scene update). -/
def panDelta (s : Scene) (k : Key) : ℚ × ℚ :=
  ((processEvent (s, true) (.keyboard .pressed (some k))).1.pan.1 - s.pan.1,
   (processEvent (s, true) (.keyboard .pressed (some k))).1.pan.2 - s.pan.2)

/-- An event is a close request when it is the window-close event or a
pressed escape key. -/
def isCloseRequest (e : Event) : Bool :=
  e = .closed || e = .keyboard .pressed (some .escape)

/-- The render loop of `main`, given the batch of events each iteration
drains: each iteration first runs `update_inputs`; if it returns `false` the
loop breaks with no further work, otherwise the iteration issues one draw
call and continues.  Returns the number of draw calls issued. -/
def drawCount (scene : Scene) : List (List Event) → ℕ
  | [] => 0
  | batch :: rest =>
    let r := update_inputs scene batch
    if r.2 then drawCount r.1 rest + 1 else 0

/-! ### Helper lemmas -/

/-- A single event step never resurrects a cleared status flag. -/
theorem processEvent_snd_false (s : Scene) (e : Event) :
    (processEvent (s, false) e).2 = false := by
  rcases e with _ | ⟨w, h⟩ | ⟨st, k⟩ | _
  · rfl
  · rfl
  · rcases st with _ | _
    · rcases k with _ | k
      · rfl
      · rcases k with _ | _ | _ | _ | _ | _ | _ | _ <;> rfl
    · rfl
  · rfl

/-- Draining any event list from a cleared status flag leaves it cleared. -/
theorem foldl_snd_false (evs : List Event) (s : Scene) :
    (evs.foldl processEvent (s, false)).2 = false := by
  induction evs generalizing s with
  | nil => rfl
  | cons e evs ih =>
    have h := processEvent_snd_false s e
    calc ((e :: evs).foldl processEvent (s, false)).2
        = (evs.foldl processEvent (processEvent (s, false) e)).2 := rfl
      _ = (evs.foldl processEvent ((processEvent (s, false) e).1, false)).2 := by
          rw [show processEvent (s, false) e
              = ((processEvent (s, false) e).1, (processEvent (s, false) e).2) from rfl, h]
      _ = false := ih _

/-- A close request clears the status flag in one step. -/
theorem processEvent_close (s : Scene × Bool) (e : Event)
    (he : isCloseRequest e = true) : (processEvent s e).2 = false := by
  rcases e with _ | ⟨w, h⟩ | ⟨st, k⟩ | _
  · rfl
  · simp [isCloseRequest] at he
  · rcases st with _ | _
    · rcases k with _ | k
      · simp [isCloseRequest] at he
      · rcases k with _ | _ | _ | _ | _ | _ | _ | _ <;>
          simp [isCloseRequest] at he
        rfl
    · simp [isCloseRequest] at he
  · simp [isCloseRequest] at he

/-- Draining a batch that holds a close request ends with the status cleared. -/
theorem update_inputs_close (s : Scene) (batch : List Event) (e : Event)
    (he : isCloseRequest e = true) (hmem : e ∈ batch) :
    (update_inputs s batch).2 = false := by
  obtain ⟨l1, l2, rfl⟩ := List.append_of_mem hmem
  unfold update_inputs
  rw [List.foldl_append, List.foldl_cons]
  have h2 := processEvent_close (l1.foldl processEvent (s, true)) e he
  rw [show processEvent (l1.foldl processEvent (s, true)) e
      = ((processEvent (l1.foldl processEvent (s, true)) e).1,
         (processEvent (l1.foldl processEvent (s, true)) e).2) from rfl, h2]
  exact foldl_snd_false l2 _

/-- A single event step keeps the zoom strictly positive. -/
theorem processEvent_zoom_pos (s : Scene × Bool) (e : Event)
    (h : 0 < s.1.zoom) : 0 < (processEvent s e).1.zoom := by
  rcases e with _ | ⟨w, h'⟩ | ⟨st, k⟩ | _
  · exact h
  · exact h
  · rcases st with _ | _
    · rcases k with _ | k
      · exact h
      · rcases k with _ | _ | _ | _ | _ | _ | _ | _
        · exact h
        · exact mul_pos h (by norm_num)
        · exact mul_pos h (by norm_num)
        · exact h
        · exact h
        · exact h
        · exact h
        · exact h
    · exact h
  · exact h

/-! ### Claim theorems -/

/-- Claim C3: scene initialization from a view-box of width `w` and height
`h` and first-shape translation `(tx, ty)` sets `zoom = 2 / max w h` and
`pan = (-w/2 + tx, -h/2 + ty)`; in particular a 100×50 view-box yields
initial zoom 0.02 and initial pan `(-50 + tx, -25 + ty)`. -/
theorem initScene_zoom_pan (w h tx ty : ℚ) :
    (initScene w h tx ty).zoom = 2 / max w h ∧
    (initScene w h tx ty).pan = (-(w / 2) + tx, -(h / 2) + ty) ∧
    (initScene 100 50 tx ty).zoom = (0.02 : ℚ) ∧
    (initScene 100 50 tx ty).pan = (-50 + tx, -25 + ty) := by
  refine ⟨rfl, ?_, by norm_num [initScene], ?_⟩
  · simp only [initScene, Prod.mk.injEq]
    constructor <;> ring
  · simp only [initScene, Prod.mk.injEq]
    norm_num

/-- Claim C8: a resize event with new window dimensions `(w, h)` replaces the
scene's projection wholesale by the orthographic matrix with horizontal
extents `(-w/h, w/h)` and vertical extents `(-1, 1)`, leaving zoom, pan and
the status flag untouched. -/
theorem resized_sets_projection (s : Scene) (st : Bool) (w h : ℕ) :
    (processEvent (s, st) (.resized w h)).1.proj
        = ortho (-((w : ℚ) / (h : ℚ))) ((w : ℚ) / (h : ℚ)) (-1) 1 (-1) 1 ∧
    (processEvent (s, st) (.resized w h)).1.zoom = s.zoom ∧
    (processEvent (s, st) (.resized w h)).1.pan = s.pan ∧
    (processEvent (s, st) (.resized w h)).2 = st :=
  ⟨rfl, rfl, rfl, rfl⟩

/-- Claim C10: a keyboard event whose state is not `Pressed` — a key release,
for any key including escape — leaves the scene entirely unchanged and does
not request close. -/
theorem key_release_noop (s : Scene) (st : Bool) (k : Option Key) :
    processEvent (s, st) (.keyboard .released k) = (s, st) := rfl

/-- Claim C6: pressing the zoom-out key three times (with no other events)
multiplies the zoom by `0.8 * 0.8 * 0.8` and leaves pan, projection and the
running status unchanged. -/
theorem zoom_out_three_times (s : Scene) :
    (update_inputs s [.keyboard .pressed (some .lbracket),
        .keyboard .pressed (some .lbracket),
        .keyboard .pressed (some .lbracket)]).1.zoom
      = (0.8 : ℚ) * 0.8 * 0.8 * s.zoom ∧
    (update_inputs s [.keyboard .pressed (some .lbracket),
        .keyboard .pressed (some .lbracket),
        .keyboard .pressed (some .lbracket)]).1.pan = s.pan ∧
    (update_inputs s [.keyboard .pressed (some .lbracket),
        .keyboard .pressed (some .lbracket),
        .keyboard .pressed (some .lbracket)]).1.proj = s.proj ∧
    (update_inputs s [.keyboard .pressed (some .lbracket),
        .keyboard .pressed (some .lbracket),
        .keyboard .pressed (some .lbracket)]).2 = true := by
  refine ⟨?_, rfl, rfl, rfl⟩
  show s.zoom * (4/5) * (4/5) * (4/5) = (0.8 : ℚ) * 0.8 * 0.8 * s.zoom
  norm_num
  ring

/-- Draining any event list keeps the zoom strictly positive. -/
theorem foldl_zoom_pos (evs : List Event) (p : Scene × Bool)
    (h : 0 < p.1.zoom) : 0 < (evs.foldl processEvent p).1.zoom := by
  induction evs generalizing p with
  | nil => exact h
  | cons e evs ih => exact ih _ (processEvent_zoom_pos p e h)

/-- Claim C4: the zoom is strictly positive throughout: initialization from a
view-box with positive dimensions yields a strictly positive zoom, and every
event step (in particular the zoom keys, which multiply by 0.8 or 1.2 with no
clamping) preserves strict positivity, hence so does draining any event
list. -/
theorem zoom_stays_positive :
    (∀ w h tx ty : ℚ, 0 < w → 0 < h → 0 < (initScene w h tx ty).zoom) ∧
    (∀ (s : Scene) (st : Bool) (e : Event),
      0 < s.zoom → 0 < (processEvent (s, st) e).1.zoom) ∧
    (∀ (s : Scene) (evs : List Event),
      0 < s.zoom → 0 < (update_inputs s evs).1.zoom) := by
  refine ⟨?_, ?_, ?_⟩
  · intro w h tx ty hw _
    exact div_pos (by norm_num) (lt_max_of_lt_left hw)
  · intro s st e h
    exact processEvent_zoom_pos (s, st) e h
  · intro s evs h
    exact foldl_zoom_pos evs (s, true) h

/-- Witness for C4 at concrete inputs. -/
theorem zoom_stays_positive_witness :
    ((0 : ℚ) < 100 ∧ (0 : ℚ) < 50 ∧ 0 < (initScene 100 50 3 4).zoom) ∧
    0 < (processEvent (initScene 100 50 3 4, true)
          (.keyboard .pressed (some .lbracket))).1.zoom ∧
    0 < (update_inputs (initScene 100 50 3 4) [.closed]).1.zoom :=
  ⟨⟨by norm_num, by norm_num,
    zoom_stays_positive.1 100 50 3 4 (by norm_num) (by norm_num)⟩,
   zoom_stays_positive.2.1 _ true _ (by norm_num [initScene]),
   zoom_stays_positive.2.2 _ [.closed] (by norm_num [initScene])⟩

/-- Claim C5: each pan key press changes exactly one stored pan component, by
a delta of magnitude `0.2 / zoom`; consequently at zoom `2z` the stored pan
delta of the same key press is half the delta at zoom `z`. -/
theorem pan_key_inverse_zoom (s t : Scene) (k : Key)
    (hk : k ∈ [Key.left, Key.right, Key.up, Key.down]) (hz : 0 < s.zoom)
    (ht : t.zoom = 2 * s.zoom) :
    (((panDelta s k).1 = 0 ∧ |(panDelta s k).2| = (1/5) / s.zoom) ∨
     ((panDelta s k).2 = 0 ∧ |(panDelta s k).1| = (1/5) / s.zoom)) ∧
    panDelta t k = ((panDelta s k).1 / 2, (panDelta s k).2 / 2) := by
  have hpos : (0 : ℚ) < 1/5 / s.zoom := div_pos (by norm_num) hz
  fin_cases hk
  · have h1 : panDelta s Key.left = (-(1/5 / s.zoom), 0) := by
      simp only [panDelta, processEvent, Prod.mk.injEq]
      constructor <;> ring
    have h2 : panDelta t Key.left = (-(1/5 / t.zoom), 0) := by
      simp only [panDelta, processEvent, Prod.mk.injEq]
      constructor <;> ring
    refine ⟨Or.inr ⟨by rw [h1], ?_⟩, ?_⟩
    · rw [h1]
      show |(-(1/5 / s.zoom))| = 1/5 / s.zoom
      rw [abs_neg, abs_of_pos hpos]
    · rw [h1, h2, ht, Prod.mk.injEq]
      have hz' : s.zoom ≠ 0 := ne_of_gt hz
      refine ⟨?_, by norm_num⟩
      show -(1/5 / (2 * s.zoom)) = -(1/5 / s.zoom) / 2
      field_simp
      ring
  · have h1 : panDelta s Key.right = (1/5 / s.zoom, 0) := by
      simp only [panDelta, processEvent, Prod.mk.injEq]
      constructor <;> ring
    have h2 : panDelta t Key.right = (1/5 / t.zoom, 0) := by
      simp only [panDelta, processEvent, Prod.mk.injEq]
      constructor <;> ring
    refine ⟨Or.inr ⟨by rw [h1], by rw [h1]; exact abs_of_pos hpos⟩, ?_⟩
    rw [h1, h2, ht, Prod.mk.injEq]
    have hz' : s.zoom ≠ 0 := ne_of_gt hz
    refine ⟨?_, by norm_num⟩
    show 1/5 / (2 * s.zoom) = 1/5 / s.zoom / 2
    field_simp
    ring
  · have h1 : panDelta s Key.up = (0, -(1/5 / s.zoom)) := by
      simp only [panDelta, processEvent, Prod.mk.injEq]
      constructor <;> ring
    have h2 : panDelta t Key.up = (0, -(1/5 / t.zoom)) := by
      simp only [panDelta, processEvent, Prod.mk.injEq]
      constructor <;> ring
    refine ⟨Or.inl ⟨by rw [h1], ?_⟩, ?_⟩
    · rw [h1]
      show |(-(1/5 / s.zoom))| = 1/5 / s.zoom
      rw [abs_neg, abs_of_pos hpos]
    · rw [h1, h2, ht, Prod.mk.injEq]
      have hz' : s.zoom ≠ 0 := ne_of_gt hz
      refine ⟨by norm_num, ?_⟩
      show -(1/5 / (2 * s.zoom)) = -(1/5 / s.zoom) / 2
      field_simp
      ring
  · have h1 : panDelta s Key.down = (0, 1/5 / s.zoom) := by
      simp only [panDelta, processEvent, Prod.mk.injEq]
      constructor <;> ring
    have h2 : panDelta t Key.down = (0, 1/5 / t.zoom) := by
      simp only [panDelta, processEvent, Prod.mk.injEq]
      constructor <;> ring
    refine ⟨Or.inl ⟨by rw [h1], by rw [h1]; exact abs_of_pos hpos⟩, ?_⟩
    rw [h1, h2, ht, Prod.mk.injEq]
    have hz' : s.zoom ≠ 0 := ne_of_gt hz
    refine ⟨by norm_num, ?_⟩
    show 1/5 / (2 * s.zoom) = 1/5 / s.zoom / 2
    field_simp
    ring

/-- Witness for C5: a scene of zoom 1/50 against a scene of zoom 1/25. -/
theorem pan_key_inverse_zoom_witness :
    (Key.left ∈ [Key.left, Key.right, Key.up, Key.down] ∧
     (0 : ℚ) < (initScene 100 50 0 0).zoom ∧
     (initScene 50 25 0 0).zoom = 2 * (initScene 100 50 0 0).zoom) ∧
    ((((panDelta (initScene 100 50 0 0) Key.left).1 = 0 ∧
       |(panDelta (initScene 100 50 0 0) Key.left).2|
         = (1/5) / (initScene 100 50 0 0).zoom) ∨
      ((panDelta (initScene 100 50 0 0) Key.left).2 = 0 ∧
       |(panDelta (initScene 100 50 0 0) Key.left).1|
         = (1/5) / (initScene 100 50 0 0).zoom)) ∧
     panDelta (initScene 50 25 0 0) Key.left
       = ((panDelta (initScene 100 50 0 0) Key.left).1 / 2,
          (panDelta (initScene 100 50 0 0) Key.left).2 / 2)) :=
  ⟨⟨by decide, by norm_num [initScene], by norm_num [initScene]⟩,
   pan_key_inverse_zoom (initScene 100 50 0 0) (initScene 50 25 0 0) Key.left
     (by decide) (by norm_num [initScene]) (by norm_num [initScene])⟩

/-- Claim C7: a close request (window-close event or pressed escape key)
drained at any iteration clears the running status — the loop moves from
Running to Closing — and the loop then breaks before drawing, so the number
of draw calls is at most the number of iterations before the one that
drained the close request. -/
theorem close_request_stops_draws (s : Scene) (pre rest : List (List Event))
    (batch : List Event) (e : Event) (he : isCloseRequest e = true)
    (hmem : e ∈ batch) :
    (∀ sc : Scene, (update_inputs sc batch).2 = false) ∧
    drawCount s (pre ++ batch :: rest) ≤ pre.length := by
  refine ⟨fun sc => update_inputs_close sc batch e he hmem, ?_⟩
  induction pre generalizing s with
  | nil =>
    show drawCount s (batch :: rest) ≤ 0
    simp only [drawCount]
    rw [update_inputs_close s batch e he hmem]
    simp
  | cons b pre ih =>
    show drawCount s (b :: (pre ++ batch :: rest)) ≤ (b :: pre).length
    simp only [drawCount, List.length_cons]
    by_cases hb : (update_inputs s b).2 = true
    · rw [if_pos hb]
      exact Nat.succ_le_succ (ih _)
    · rw [if_neg hb]
      exact Nat.zero_le _

/-- Witness for C7: a single iteration whose batch is just the close event. -/
theorem close_request_stops_draws_witness :
    (isCloseRequest Event.closed = true ∧ Event.closed ∈ [Event.closed]) ∧
    ((∀ sc : Scene, (update_inputs sc [Event.closed]).2 = false) ∧
     drawCount (initScene 100 50 0 0) ([] ++ [Event.closed] :: [])
       ≤ List.length ([] : List (List Event))) :=
  ⟨⟨by decide, by decide⟩,
   close_request_stops_draws (initScene 100 50 0 0) [] [] [Event.closed]
     Event.closed (by decide) (by decide)⟩

/-- Processing one shape succeeds exactly when its fill tessellation
succeeds: a stroke tessellation failure is absorbed. -/
theorem processShape_isOk (m : MeshBuffer) (p : PathShape) :
    (processShape m p).isOk = true ↔
      (fillTess (fillColor p) (fillPaint p).2 p.path).isOk = true := by
  unfold processShape
  cases hf : fillTess (fillColor p) (fillPaint p).2 p.path with
  | error e => simp [Except.isOk, Except.toBool]
  | ok out =>
    cases p.stroke with
    | none => simp [Except.isOk, Except.toBool]
    | some st =>
      cases hst : strokeTess (convert_stroke st) st.opacity st.width p.path <;>
        simp [hst, Except.isOk, Except.toBool]

/-- The build loop from any accumulated mesh succeeds exactly when every
remaining shape's fill tessellation succeeds. -/
theorem buildMeshFrom_isOk (shapes : List PathShape) (m : MeshBuffer) :
    (buildMeshFrom m shapes).isOk = true ↔
      ∀ p ∈ shapes, (fillTess (fillColor p) (fillPaint p).2 p.path).isOk = true := by
  induction shapes generalizing m with
  | nil => simp [buildMeshFrom, Except.isOk, Except.toBool]
  | cons p ps ih =>
    unfold buildMeshFrom
    cases hp : processShape m p with
    | error e =>
      have hfill : ¬ (fillTess (fillColor p) (fillPaint p).2 p.path).isOk = true := by
        intro hcontra
        have h2 := (processShape_isOk m p).mpr hcontra
        rw [hp] at h2
        simp [Except.isOk, Except.toBool] at h2
      constructor
      · intro h
        simp [Except.isOk, Except.toBool] at h
      · intro h
        exact absurd (h p (List.mem_cons_self _ _)) hfill
    | ok m' =>
      have hfill : (fillTess (fillColor p) (fillPaint p).2 p.path).isOk = true := by
        rw [← processShape_isOk m p, hp]
        rfl
      simp only [List.mem_cons, ih m']
      constructor
      · intro h q hq
        rcases hq with rfl | hq
        · exact hfill
        · exact h q hq
      · intro h q hq
        exact h q (Or.inr hq)

/-- Counterexample to claim C1 as stated: a document whose first shape has a
degenerate two-point outline (fill tessellation fails) followed by a sound
triangle shape.  The build does not skip the bad shape and continue — it
aborts the whole build with the `expect` panic message, and the second
shape is never processed. -/
theorem fill_failure_aborts_build :
    buildMesh [⟨[((0:ℚ), (0:ℚ)), ((1:ℚ), (1:ℚ))], none, none⟩,
               ⟨[((0:ℚ), (0:ℚ)), ((1:ℚ), (0:ℚ)), ((0:ℚ), (1:ℚ))], none, none⟩]
      = .error "Error during tesselation!" := rfl

/-- Claim C1 (amended): only a stroke tessellation failure is non-fatal — the
stroke's contribution is skipped and the build proceeds; a fill tessellation
failure aborts the whole build.  Equivalently, the build succeeds exactly
when every shape's fill tessellation succeeds, irrespective of stroke
failures. -/
theorem build_ok_iff_all_fills_ok (shapes : List PathShape) :
    (buildMesh shapes).isOk = true ↔
      ∀ p ∈ shapes, (fillTess (fillColor p) (fillPaint p).2 p.path).isOk = true :=
  buildMeshFrom_isOk shapes MeshBuffer.empty

/-- Counterexample to claim C2 as stated: a triangle shape with no fill and
no stroke contributes three vertices and three indices to the mesh, not
zero — the build substitutes the fallback color and tessellates the fill
anyway. -/
theorem unpainted_shape_contributes_vertices :
    (buildMesh [⟨[((0:ℚ), 0), (1, 0), (0, 1)], none, none⟩]).map
        (fun m => (m.vertices.length, m.indices.length)) = .ok (3, 3) := rfl

/-- Claim C2 (amended): a shape with no fill and no stroke is still
fill-tessellated with the fallback color at opacity 1; processing it appends
exactly that fill tessellation's output (and no stroke geometry), which is
nonempty whenever the outline is nondegenerate. -/
theorem unpainted_shape_appends_fallback_fill (m : MeshBuffer) (p : PathShape)
    (out : List Vertex × List ℕ) (hf : p.fill = none) (hs : p.stroke = none)
    (ho : fillTess FALLBACK_COLOR 1 p.path = .ok out) :
    processShape m p = .ok (m.append out) := by
  have hp : fillPaint p = (.color FALLBACK_COLOR, 1) := by
    unfold fillPaint
    rw [hf]
  have hc : fillColor p = FALLBACK_COLOR := by
    unfold fillColor
    rw [hp]
  unfold processShape
  rw [hp, hc, ho, hs]

/-- Witness for the amended C2 at a concrete triangle shape. -/
theorem unpainted_shape_appends_fallback_fill_witness :
    ((⟨[((0:ℚ), 0), (1, 0), (0, 1)], none, none⟩ : PathShape).fill = none ∧
     (⟨[((0:ℚ), 0), (1, 0), (0, 1)], none, none⟩ : PathShape).stroke = none ∧
     fillTess FALLBACK_COLOR 1 [((0:ℚ), 0), (1, 0), (0, 1)]
       = .ok ([⟨((0:ℚ), 0), FALLBACK_COLOR, 1⟩, ⟨((1:ℚ), 0), FALLBACK_COLOR, 1⟩,
               ⟨((0:ℚ), 1), FALLBACK_COLOR, 1⟩], [0, 1, 2])) ∧
    processShape MeshBuffer.empty ⟨[((0:ℚ), 0), (1, 0), (0, 1)], none, none⟩
      = .ok (MeshBuffer.empty.append
          ([⟨((0:ℚ), 0), FALLBACK_COLOR, 1⟩, ⟨((1:ℚ), 0), FALLBACK_COLOR, 1⟩,
            ⟨((0:ℚ), 1), FALLBACK_COLOR, 1⟩], [0, 1, 2])) :=
  ⟨⟨rfl, rfl, rfl⟩,
   unpainted_shape_appends_fallback_fill MeshBuffer.empty
     ⟨[((0:ℚ), 0), (1, 0), (0, 1)], none, none⟩ _ rfl rfl rfl⟩

/-- A document whose nodes are all non-path nodes records no transform. -/
theorem firstTransform_of_others (l : List Node)
    (h : ∀ m ∈ l, m.kind = NodeKind.other) : firstTransform l = none := by
  induction l with
  | nil => rfl
  | cons m ms ih =>
    obtain ⟨mk, mt⟩ := m
    have hm : mk = NodeKind.other := h _ (List.mem_cons_self _ _)
    subst hm
    exact ih (fun x hx => h x (List.mem_cons_of_mem _ hx))

/-- The recorded transform is the first path node's transform, whatever
precedes (non-path nodes) or follows it. -/
theorem firstTransform_first_path (pre post : List Node) (n : Node)
    (psh : PathShape) (hpre : ∀ m ∈ pre, m.kind = NodeKind.other)
    (hn : n.kind = NodeKind.path psh) :
    firstTransform (pre ++ n :: post) = some n.transform := by
  induction pre with
  | nil =>
    obtain ⟨nk, nt⟩ := n
    simp only at hn
    subst hn
    rfl
  | cons m ms ih =>
    obtain ⟨mk, mt⟩ := m
    have hm : mk = NodeKind.other := hpre _ (List.mem_cons_self _ _)
    subst hm
    exact ih (fun x hx => hpre x (List.mem_cons_of_mem _ hx))

/-- Counterexample to claim C9 as stated: in a document whose first node is a
non-path node with transform `(5, 7)` followed by a path node with transform
`(1, 2)`, the first transform encountered in document order is `(5, 7)`, yet
the extracted translation is `(1, 2)` — the non-path node's transform is
ignored. -/
theorem first_node_transform_ignored :
    initTranslation [⟨.other, ⟨5, 7⟩⟩, ⟨.path ⟨[], none, none⟩, ⟨1, 2⟩⟩]
        = (1, 2) ∧
    (([⟨.other, ⟨5, 7⟩⟩, ⟨.path ⟨[], none, none⟩, ⟨1, 2⟩⟩] : List Node).head?).map
        Node.transform = some ⟨5, 7⟩ ∧
    ((1 : ℚ), (2 : ℚ)) ≠ ((5 : ℚ), (7 : ℚ)) :=
  ⟨rfl, rfl, by decide⟩

/-- Claim C9 (amended): only the translation components of the first *path*
node's transform, in document order, seed the initial pan translation;
transforms of non-path nodes and of every later node are ignored, and with no
path node at all the translation defaults to `(0, 0)`. -/
theorem initTranslation_first_path_node (pre post : List Node) (n : Node)
    (psh : PathShape) (hpre : ∀ m ∈ pre, m.kind = NodeKind.other)
    (hn : n.kind = NodeKind.path psh) :
    initTranslation (pre ++ n :: post) = (n.transform.e, n.transform.f) ∧
    initTranslation pre = (0, 0) := by
  constructor
  · unfold initTranslation
    rw [firstTransform_first_path pre post n psh hpre hn]
  · unfold initTranslation
    rw [firstTransform_of_others pre hpre]

/-- Witness for the amended C9 at a concrete two-node document. -/
theorem initTranslation_first_path_node_witness :
    ((∀ m ∈ [(⟨.other, ⟨5, 7⟩⟩ : Node)], m.kind = NodeKind.other) ∧
     (⟨.path ⟨[], none, none⟩, ⟨1, 2⟩⟩ : Node).kind
       = NodeKind.path ⟨[], none, none⟩) ∧
    (initTranslation ([(⟨.other, ⟨5, 7⟩⟩ : Node)]
          ++ (⟨.path ⟨[], none, none⟩, ⟨1, 2⟩⟩ : Node) :: [])
        = ((⟨.path ⟨[], none, none⟩, ⟨1, 2⟩⟩ : Node).transform.e,
           (⟨.path ⟨[], none, none⟩, ⟨1, 2⟩⟩ : Node).transform.f) ∧
     initTranslation [(⟨.other, ⟨5, 7⟩⟩ : Node)] = (0, 0)) :=
  ⟨⟨by decide, rfl⟩,
   initTranslation_first_path_node [(⟨.other, ⟨5, 7⟩⟩ : Node)] []
     (⟨.path ⟨[], none, none⟩, ⟨1, 2⟩⟩ : Node) ⟨[], none, none⟩
     (by decide) rfl⟩

end SvgRender
